import Mathlib

/-!
Shallow embedding of the session orchestrator in `src/smpPeer.ts` of
js-smp-peer, together with its error types (`src/exceptions.ts`) and the
event registry.  The protocol engine (`SMPStateMachine` from js-smp), the
codec (`TLV`) and the transport (`peerjs`) are external collaborators: they
are modelled as opaque parameters (an abstract transit function, abstract
serialize/deserialize functions, and a time-indexed observation of the
engine finished predicate), exactly as the orchestrator treats them.
-/

namespace SmpPeer

/-- Error kinds of `src/exceptions.ts`: `ServerUnconnected`, `ServerFault`,
`TimeoutError`, `EventUnsupported`, each carrying a message string. -/
inductive SMPPeerError : Type
  | ServerUnconnected (msg : String)
  | ServerFault (msg : String)
  | TimeoutError (msg : String)
  | EventUnsupported (msg : String)
  deriving Repr, DecidableEq

/-- Polling interval of the completion waiter: `const timeSleep = 10;`. -/
def timeSleep : Nat := 10

/-- Default session timeout: `const defaultTimeout = 30000;`. -/
def defaultTimeout : Nat := 30000

/-!
Completion waiter (`waitUntilStateMachineFinished` /
`waitUntilStateMachineFinishedOrTimeout`, `src/smpPeer.ts` lines 38-67).

The loop `while (!stateMachine.isFinished()) await sleep(timeSleep)` checks
the finished predicate at times 0, 10, 20, ... and resolves at the first
check that observes `true`.  The engine is driven concurrently by inbound
frames, so from the waiter point of view its finished predicate is an
arbitrary time-indexed observation `isFin : Nat -> Bool`.
-/

/-- Resolution time of the poll loop within the window `[0, timeout)`:
the first multiple of `timeSleep` strictly below `timeout` at which the
finished predicate reads `true`, if any.  This is the time at which
`waitUntilStateMachineFinished` resolves, when it does so before the
competing timer of `waitUntilStateMachineFinishedOrTimeout` fires. -/
def firstFinishPoll (isFin : Nat → Bool) (timeout : Nat) : Option Nat :=
  ((List.range timeout).filter (fun t => t % timeSleep == 0 && isFin t)).head?

/-- Whether the poll loop of `waitUntilStateMachineFinished` performs a check
at time `t`: `t` is a multiple of `timeSleep` and every earlier check
observed an unfinished engine (the loop exits only when a check observes
`true`).  The loop holds no reference to the timeout timer, so this does not
depend on the timeout: nothing in the source cancels the loop. -/
def pollOccursAt (isFin : Nat → Bool) (t : Nat) : Bool :=
  t % timeSleep == 0 &&
    ((List.range t).filter (fun s => s % timeSleep == 0)).all (fun s => !isFin s)

/-- Embedding of `waitUntilStateMachineFinishedOrTimeout` (lines 46-67):
races the poll loop against a timer of `timeout` ms that rejects with
`TimeoutError`.  The race resolves if the poll loop observes a finished
engine strictly before the timer fires, and rejects with the timer error
otherwise. -/
def waitUntilStateMachineFinishedOrTimeout (isFin : Nat → Bool)
    (timeout : Nat) : Except SMPPeerError Unit :=
  match firstFinishPoll isFin timeout with
  | some _ => Except.ok ()
  | none =>
      Except.error
        (SMPPeerError.TimeoutError "state machine is not finished before timeout")

/-- Whether the `TimeoutError` timer ever fires.  The timer is armed for
time `timeout`; when the race resolves (the poll loop wins at some time
strictly below `timeout`) the continuation runs `clearTimeout(timeoutID)`
before the timer deadline, so the timer fires exactly when the poll loop
does not win the race. -/
def timerFires (isFin : Nat → Bool) (timeout : Nat) : Bool :=
  (firstFinishPoll isFin timeout).isNone

/-!
Frame bridge (`createConnDataHandler`, `src/smpPeer.ts` lines 17-29).

The engine transit operation takes a message or null, mutates the engine
and returns an optional reply, so it is embedded as
`σ → Option Msg → σ × Option Msg` over an abstract engine-state type `σ`
and abstract message type `Msg`.  The codec is the pair
`deser : Bytes → Msg` (for `TLV.deserialize`) and `ser : Msg → Bytes`
(for `serialize`).  The handler returns the new engine state together with
the list of byte buffers sent on the connection (empty or a singleton).
-/

/-- Embedding of the closure returned by `createConnDataHandler`: decode
the inbound buffer, transit the engine with the decoded message; if the
reply is null do nothing, otherwise serialize and send the reply. -/
def createConnDataHandler {σ Msg Bytes : Type}
    (transit : σ → Option Msg → σ × Option Msg)
    (ser : Msg → Bytes) (deser : Bytes → Msg)
    (s : σ) (data : Bytes) : σ × List Bytes :=
  let tlv := deser data
  let res := transit s (some tlv)
  match res.2 with
  | none => (res.1, [])
  | some replyTLV => (res.1, [ser replyTLV])

/-- Modelled from the spec (4.4 Frame Bridge), for comparison with the
source embedding: on each inbound byte buffer, decode it to a protocol
message, pass it to the transit operation; if the engine produces a reply
message, encode and send it on the same connection; if it produces none,
take no action. -/
def frameBridgeSpec {σ Msg Bytes : Type}
    (transit : σ → Option Msg → σ × Option Msg)
    (ser : Msg → Bytes) (deser : Bytes → Msg)
    (s : σ) (data : Bytes) : σ × List Bytes :=
  match transit s (some (deser data)) with
  | (s2, none) => (s2, [])
  | (s2, some reply) => (s2, [ser reply])

/-!
Event dispatcher (`on`, `src/smpPeer.ts` lines 279-291) over the four
single-slot callback fields `cbServerConnected`, `cbServerDisconnected`,
`cbError`, `cbIncomingSMP` of class `SMPPeer`.  The recognized event-kind
strings in the source are the constants `eventServerConnected = "connected"`,
`eventServerDisconnected = "disconnected"`, `eventError = "error"`,
`eventIncomingSMP = "incoming"` (the spec refers to the same four kinds as
server-connected, server-disconnected, error, incoming-session-finished).
Callbacks are opaque values of an abstract type `CB`. -/
structure EventRegistry (CB : Type) where
  cbServerConnected : Option CB
  cbServerDisconnected : Option CB
  cbError : Option CB
  cbIncomingSMP : Option CB
  deriving Repr, DecidableEq

/-- Registry with no callback bound, the state of a fresh `SMPPeer`. -/
def EventRegistry.empty (CB : Type) : EventRegistry CB :=
  ⟨none, none, none, none⟩

def eventServerConnected : String := "connected"
def eventServerDisconnected : String := "disconnected"
def eventError : String := "error"
def eventIncomingSMP : String := "incoming"

/-- Embedding of `SMPPeer.on`: store the callback in the slot of the
recognized kind (the if/else chain of lines 280-290, in source order),
or throw `EventUnsupported` synchronously, leaving the registry as it was. -/
def onEvent {CB : Type} (r : EventRegistry CB) (event : String) (cb : CB) :
    Except SMPPeerError Unit × EventRegistry CB :=
  if event = eventServerConnected then
    (Except.ok (), { r with cbServerConnected := some cb })
  else if event = eventServerDisconnected then
    (Except.ok (), { r with cbServerDisconnected := some cb })
  else if event = eventIncomingSMP then
    (Except.ok (), { r with cbIncomingSMP := some cb })
  else if event = eventError then
    (Except.ok (), { r with cbError := some cb })
  else
    (Except.error (SMPPeerError.EventUnsupported ("event unsupported: " ++ event)), r)

/-!
Registration state of an `SMPPeer` instance.  The private field
`peer?: Peer` is `none` until `connectToPeerServer` assigns it; the handle
records the id the peer server returned (in peerjs, `peer.id`). -/

/-- Handle to the underlying `Peer` object, as far as the orchestrator
reads it: its `id` field. -/
structure PeerHandle where
  id : String
  deriving Repr, DecidableEq

/-- State of an `SMPPeer` instance: the constructor arguments plus the
mutable fields `peer` and the four callback slots. -/
structure SMPPeerState (CB : Type) where
  secret : String
  localPeerID : Option String
  timeout : Nat
  peer : Option PeerHandle
  registry : EventRegistry CB
  deriving Repr, DecidableEq

/-- State produced by `new SMPPeer(secret, localPeerID, config, timeout)`:
no peer handle, no callbacks bound. -/
def SMPPeerState.new (CB : Type) (secret : String) (localPeerID : Option String)
    (timeout : Nat) : SMPPeerState CB :=
  ⟨secret, localPeerID, timeout, none, EventRegistry.empty CB⟩

/-- Embedding of the accessor `get id` (lines 121-131): throws
`ServerUnconnected` while `this.peer` is undefined, otherwise returns
`this.peer.id`. -/
def getID {CB : Type} (p : SMPPeerState CB) : Except SMPPeerError String :=
  match p.peer with
  | none =>
      Except.error
        (SMPPeerError.ServerUnconnected
          "need to be connected to a peer server to discover other peers")
  | some h => Except.ok h.id

/-- Embedding of the handler bound by `localPeer.on(open, ...)` inside
`connectToPeerServer` (lines 182-199), the code that settles the returned
promise, as a function of the id the peer server confirms.  In the source
a mismatch calls `reject(new ServerFault(...))` but does not return, so the
subsequent statements `resolve(id)`, `this.peer = localPeer` and the
`cbServerConnected` invocation run in every case; the promise keeps the
first settlement, so the outcome is the `ServerFault` rejection exactly on
a mismatch.  Returns the outcome of `connectToPeerServer` paired with the
mutated state. -/
def connectOpenHandler {CB : Type} (p : SMPPeerState CB) (returnedID : String) :
    Except SMPPeerError Unit × SMPPeerState CB :=
  let outcome : Except SMPPeerError Unit :=
    match p.localPeerID with
    | some expected =>
        if returnedID ≠ expected then
          Except.error
            (SMPPeerError.ServerFault
              ("the returned id from the peer server is not the one we expect: returned="
                ++ returnedID ++ ", expected=" ++ expected))
        else Except.ok ()
    | none => Except.ok ()
  (outcome, { p with peer := some ⟨returnedID⟩ })

/-- Embedding of `connectToPeerServer` (lines 140-201) as observed through
the peer-server open event carrying the confirmed id `returnedID`: the
call resolves or rejects with the settlement chosen by the open handler,
and the instance state is whatever that handler left behind. -/
def connectToPeerServer {CB : Type} (p : SMPPeerState CB) (returnedID : String) :
    Except SMPPeerError Unit × SMPPeerState CB :=
  connectOpenHandler p returnedID

/-- Embedding of `runSMP` (lines 211-232): throw `ServerUnconnected` when
`this.peer` is undefined; otherwise open the connection, drive the engine
through the data handler, await the completion waiter and return
`stateMachine.getResult()`.  The engine observations are the finished
trace `isFin` and the final result `result`; the remote peer id does not
influence the outcome beyond naming the connection. -/
def runSMP {CB : Type} (p : SMPPeerState CB) (remotePeerID : String)
    (isFin : Nat → Bool) (result : Bool) : Except SMPPeerError Bool :=
  match p.peer with
  | none =>
      Except.error
        (SMPPeerError.ServerUnconnected
          "need to be connected to a peer server to discover other peers")
  | some _ =>
      match waitUntilStateMachineFinishedOrTimeout isFin p.timeout with
      | Except.error e => Except.error e
      | Except.ok _ => Except.ok result

/-- Embedding of `disconnect` (lines 237-244): throw `ServerUnconnected`
when `this.peer` is undefined, otherwise call `this.peer.disconnect()`;
the field `this.peer` itself is never written. -/
def disconnect {CB : Type} (p : SMPPeerState CB) :
    Except SMPPeerError Unit × SMPPeerState CB :=
  match p.peer with
  | none =>
      (Except.error
        (SMPPeerError.ServerUnconnected
          "need to be connected to a peer server to disconnect"), p)
  | some _ => (Except.ok (), p)

/-- Message carried by an error value, used when the inbound-connection
handler stringifies the caught exception for its console.error log. -/
def SMPPeerError.message : SMPPeerError → String
  | SMPPeerError.ServerUnconnected m => m
  | SMPPeerError.ServerFault m => m
  | SMPPeerError.TimeoutError m => m
  | SMPPeerError.EventUnsupported m => m

/-- Returns true exactly on a `ServerUnconnected` failure, the outcome of
an operation rejected by the registration precondition check. -/
def isServerUnconnected {α : Type} : Except SMPPeerError α → Bool
  | Except.error (SMPPeerError.ServerUnconnected _) => true
  | _ => false

/-!
Session traces.  To reason about which side of a session invokes which
callback, the observable behaviour of the per-connection handlers is
recorded as a list of actions: bytes sent on the connection, callback
invocations through the event registry, and console.error logs.
-/

/-- Callback invocations deliverable through the event registry. -/
inductive PeerEvent : Type
  | serverConnected
  | serverDisconnected
  | errorEvent (msg : String)
  | incomingSMP (remotePeerID : String) (result : Bool)
  deriving Repr, DecidableEq

/-- Observable actions of a per-connection handler. -/
inductive Action (Bytes : Type) : Type
  | sendData (b : Bytes)
  | invokeCB (e : PeerEvent)
  | logError (msg : String)

/-- Callback invocations contained in an action trace, in order. -/
def invokedEvents {Bytes : Type} (acts : List (Action Bytes)) : List PeerEvent :=
  acts.filterMap fun a =>
    match a with
    | Action.invokeCB e => some e
    | _ => none

/-- Effect of delivering the inbound frames of a connection, in arrival
order, to the data handler installed by `conn.on(data, ...)`: the final
engine state and the byte buffers the handler sent back. -/
def foldConnData {σ Msg Bytes : Type}
    (transit : σ → Option Msg → σ × Option Msg)
    (ser : Msg → Bytes) (deser : Bytes → Msg)
    (s : σ) (frames : List Bytes) : σ × List Bytes :=
  frames.foldl
    (fun acc data =>
      let r := createConnDataHandler transit ser deser acc.1 data
      (r.1, acc.2 ++ r.2))
    (s, [])

/-- Trace of the initiator-side connection opened by `runSMP`
(lines 220-229): on open, produce the first message by transiting with
null input and send it (a null first message is the fatal sanity-check
failure `msg1 should not be null`, modelled as `none`); install the data
handler; then process the inbound frames.  The trace contains sends only:
the body of `runSMP` invokes no registry callback. -/
def runSMPConnTrace {σ Msg Bytes : Type}
    (transit : σ → Option Msg → σ × Option Msg)
    (ser : Msg → Bytes) (deser : Bytes → Msg)
    (s0 : σ) (frames : List Bytes) : Option (σ × List (Action Bytes)) :=
  match transit s0 none with
  | (_, none) => none
  | (s1, some firstMsg) =>
      let r := foldConnData transit ser deser s1 frames
      some (r.1, Action.sendData (ser firstMsg) :: r.2.map Action.sendData)

/-- Callback invocations of the initiator-side trace of `runSMP` (empty
trace when the first message is null and the handler dies fatally). -/
def runSMPInvokedEvents {σ Msg Bytes : Type}
    (transit : σ → Option Msg → σ × Option Msg)
    (ser : Msg → Bytes) (deser : Bytes → Msg)
    (s0 : σ) (frames : List Bytes) : List PeerEvent :=
  match runSMPConnTrace transit ser deser s0 frames with
  | none => []
  | some r => invokedEvents r.2

/-- Trace of the responder side: the handler installed by
`localPeer.on(connection, ...)` and run by `conn.on(open, ...)`
(lines 160-177).  A fresh engine is created, the data handler installed and
the inbound frames processed; then the completion waiter is awaited.  On
failure the exception is caught, logged with console.error and the handler
returns; on success `stateMachine.getResult()` is read and the
incoming-SMP callback, when registered, is invoked with `conn.peer` (the
identity of the initiating remote peer) and the result. -/
def inboundConnTrace {σ Msg Bytes : Type}
    (transit : σ → Option Msg → σ × Option Msg)
    (ser : Msg → Bytes) (deser : Bytes → Msg) (getResult : σ → Bool)
    (s0 : σ) (connPeer : String) (timeout : Nat) (isFin : Nat → Bool)
    (cbRegistered : Bool) (frames : List Bytes) : σ × List (Action Bytes) :=
  let r := foldConnData transit ser deser s0 frames
  match waitUntilStateMachineFinishedOrTimeout isFin timeout with
  | Except.error e =>
      (r.1, r.2.map Action.sendData ++
        [Action.logError
          (SMPPeerError.message e ++ " is thrown when running SMP with peer=" ++ connPeer)])
  | Except.ok _ =>
      (r.1, r.2.map Action.sendData ++
        (if cbRegistered then
          [Action.invokeCB (PeerEvent.incomingSMP connPeer (getResult r.1))]
        else []))

/-!
State evolution across the public operations of `SMPPeer`, for the
persistence of the private `peer` field: the only assignment to
`this.peer` in the whole class is the one inside the open handler of
`connectToPeerServer`; every other operation leaves the field alone.
-/

/-- Public operations of an `SMPPeer` instance, with the external
observations each one consumes. -/
inductive PeerOp (CB : Type) : Type
  | opConnect (returnedID : String)
  | opGetID
  | opRunSMP (remotePeerID : String) (isFin : Nat → Bool) (result : Bool)
  | opDisconnect
  | opOn (event : String) (cb : CB)

/-- State left behind by one public operation: `connectToPeerServer`
stores the new handle, `on` updates the registry, and `id`, `runSMP` and
`disconnect` never write the instance fields. -/
def applyOp {CB : Type} (p : SMPPeerState CB) : PeerOp CB → SMPPeerState CB
  | PeerOp.opConnect rid => (connectToPeerServer p rid).2
  | PeerOp.opGetID => p
  | PeerOp.opRunSMP _ _ _ => p
  | PeerOp.opDisconnect => (disconnect p).2
  | PeerOp.opOn ev cb => { p with registry := (onEvent p.registry ev cb).2 }

/-!
Helper lemmas on the completion-waiter model and on action traces.
-/

/-- An engine that never reports finished is never observed finished by
any poll in the window. -/
theorem firstFinishPoll_eq_none (isFin : Nat → Bool) (timeout : Nat)
    (h : ∀ t, isFin t = false) : firstFinishPoll isFin timeout = none := by
  unfold firstFinishPoll
  have hfil :
      (List.range timeout).filter (fun t => t % timeSleep == 0 && isFin t) = [] := by
    apply List.filter_eq_nil_iff.mpr
    intro a _
    simp [h a]
  rw [hfil]
  rfl

/-- A successful poll happened strictly before the timeout, on the poll
grid, and observed a finished engine. -/
theorem firstFinishPoll_mem (isFin : Nat → Bool) (timeout t : Nat)
    (h : firstFinishPoll isFin timeout = some t) :
    t < timeout ∧ t % timeSleep = 0 ∧ isFin t = true := by
  unfold firstFinishPoll at h
  have hmem : t ∈ (List.range timeout).filter (fun s => s % timeSleep == 0 && isFin s) :=
    List.mem_of_mem_head? h
  have h2 := List.mem_filter.mp hmem
  have hlt := List.mem_range.mp h2.1
  have h3 := h2.2
  simp only [Bool.and_eq_true, beq_iff_eq] at h3
  exact ⟨hlt, h3.1, h3.2⟩

/-- Invoked callbacks distribute over concatenation of traces. -/
theorem invokedEvents_append {Bytes : Type} (l1 l2 : List (Action Bytes)) :
    invokedEvents (l1 ++ l2) = invokedEvents l1 ++ invokedEvents l2 :=
  List.filterMap_append l1 l2 _

/-- A trace consisting purely of sends invokes no callback. -/
theorem invokedEvents_sendData {Bytes : Type} (l : List Bytes) :
    invokedEvents (l.map (Action.sendData : Bytes → Action Bytes)) = [] := by
  induction l with
  | nil => rfl
  | cons a as ih =>
      simp only [List.map_cons, invokedEvents, List.filterMap_cons] at ih ⊢
      exact ih

/-!
Claim theorems.
-/

/-- Claim C1: `connectToPeerServer` rejects with `ServerFault` whenever a
local peer id was requested and the id confirmed by the peer server open
event differs from it; it resolves without `ServerFault` when the
confirmed id equals the requested one or when no id was requested. -/
theorem connectToPeerServer_serverFault {CB : Type} (p : SMPPeerState CB)
    (returnedID expected : String) :
    (p.localPeerID = some expected → returnedID ≠ expected →
      (connectToPeerServer p returnedID).1 =
        Except.error (SMPPeerError.ServerFault
          ("the returned id from the peer server is not the one we expect: returned="
            ++ returnedID ++ ", expected=" ++ expected)))
    ∧ ((p.localPeerID = none ∨ p.localPeerID = some returnedID) →
      (connectToPeerServer p returnedID).1 = Except.ok ()) := by
  constructor
  · intro hl hne
    simp [connectToPeerServer, connectOpenHandler, hl, hne]
  · intro hl
    rcases hl with hl | hl <;> simp [connectToPeerServer, connectOpenHandler, hl]

/-- Witness for C1 at requested id pid: a confirmed id pid123 rejects the
call with `ServerFault`, while a confirmed id pid resolves it. -/
theorem connectToPeerServer_serverFault_witness :
    (connectToPeerServer (SMPPeerState.new Unit "123" (some "pid") 20) "pid123").1 =
      Except.error (SMPPeerError.ServerFault
        ("the returned id from the peer server is not the one we expect: returned="
          ++ "pid123" ++ ", expected=" ++ "pid")) ∧
    (connectToPeerServer (SMPPeerState.new Unit "123" (some "pid") 20) "pid").1 =
      Except.ok () :=
  ⟨(connectToPeerServer_serverFault (SMPPeerState.new Unit "123" (some "pid") 20)
      "pid123" "pid").1 rfl (by decide),
   (connectToPeerServer_serverFault (SMPPeerState.new Unit "123" (some "pid") 20)
      "pid" "pid").2 (Or.inr rfl)⟩

/-- Claim C2, evaluated at the failing input: registering with requested
id pid against a server that confirms pid123 rejects with `ServerFault`,
but the rejection inside the open handler is not followed by a return, so
`this.peer = localPeer` still runs: the mismatched handle is retained and
the id accessor afterwards succeeds with pid123 instead of failing with
`ServerUnconnected`. -/
theorem connect_serverFault_retains_peer :
    (connectToPeerServer (SMPPeerState.new Unit "123" (some "pid") 20) "pid123").1 =
      Except.error (SMPPeerError.ServerFault
        "the returned id from the peer server is not the one we expect: returned=pid123, expected=pid")
    ∧ (connectToPeerServer (SMPPeerState.new Unit "123" (some "pid") 20) "pid123").2.peer =
        some ⟨"pid123"⟩
    ∧ getID (connectToPeerServer (SMPPeerState.new Unit "123" (some "pid") 20) "pid123").2 =
        Except.ok "pid123" := by
  refine ⟨rfl, rfl, rfl⟩

/-- Claim C3, evaluated at the failing input: after a `connectToPeerServer`
call that rejected with `ServerFault` (so registration has not completed
successfully), `runSMP` does not fail with `ServerUnconnected`: the peer
handle was retained by the failed call, the precondition check passes and
the call proceeds to the session (here timing out on an engine that never
finishes). -/
theorem runSMP_after_serverFault_not_unconnected :
    (connectToPeerServer (SMPPeerState.new Unit "123" (some "pid") 20) "pid123").1 =
      Except.error (SMPPeerError.ServerFault
        "the returned id from the peer server is not the one we expect: returned=pid123, expected=pid")
    ∧ isServerUnconnected
        (runSMP (connectToPeerServer (SMPPeerState.new Unit "123" (some "pid") 20) "pid123").2
          "B" (fun _ => false) false) = false
    ∧ runSMP (connectToPeerServer (SMPPeerState.new Unit "123" (some "pid") 20) "pid123").2
        "B" (fun _ => false) false =
      Except.error (SMPPeerError.TimeoutError "state machine is not finished before timeout") := by
  refine ⟨rfl, rfl, rfl⟩

/-- Claim C4: on a registered orchestrator, if the engine never reaches
its finished state then `runSMP` fails with `TimeoutError` (it neither
resolves nor hangs: the timer settles the race); and `runSMP` resolves
with a boolean only when some poll strictly before the timeout observed
the finished engine, in which case the boolean is the engine result. -/
theorem runSMP_timeout_or_result {CB : Type} (p : SMPPeerState CB)
    (hdl : PeerHandle) (hp : p.peer = some hdl)
    (remotePeerID : String) (isFin : Nat → Bool) (result : Bool) :
    ((∀ t, isFin t = false) →
      runSMP p remotePeerID isFin result =
        Except.error
          (SMPPeerError.TimeoutError "state machine is not finished before timeout"))
    ∧ (∀ b, runSMP p remotePeerID isFin result = Except.ok b →
        b = result ∧ ∃ t, t < p.timeout ∧ t % timeSleep = 0 ∧ isFin t = true) := by
  constructor
  · intro h
    simp [runSMP, hp, waitUntilStateMachineFinishedOrTimeout,
      firstFinishPoll_eq_none isFin p.timeout h]
  · intro b hb
    unfold runSMP at hb
    rw [hp] at hb
    cases hw : waitUntilStateMachineFinishedOrTimeout isFin p.timeout with
    | error e => rw [hw] at hb; exact absurd hb (by simp)
    | ok u =>
        rw [hw] at hb
        have hbr : b = result := by
          have := hb
          simp at this
          exact this.symm
        refine ⟨hbr, ?_⟩
        unfold waitUntilStateMachineFinishedOrTimeout at hw
        cases hf : firstFinishPoll isFin p.timeout with
        | none => rw [hf] at hw; exact absurd hw (by simp)
        | some t =>
            obtain ⟨h1, h2, h3⟩ := firstFinishPoll_mem isFin p.timeout t hf
            exact ⟨t, h1, h2, h3⟩

/-- Witness for C4: a registered orchestrator with timeout 20 whose engine
never finishes fails with `TimeoutError`. -/
theorem runSMP_timeout_or_result_witness :
    runSMP (⟨"123", some "pid", 20, some ⟨"pid"⟩, EventRegistry.empty Unit⟩ :
        SMPPeerState Unit) "B" (fun _ => false) false =
      Except.error
        (SMPPeerError.TimeoutError "state machine is not finished before timeout") :=
  (runSMP_timeout_or_result
      (⟨"123", some "pid", 20, some ⟨"pid"⟩, EventRegistry.empty Unit⟩ : SMPPeerState Unit)
      ⟨"pid"⟩ rfl "B" (fun _ => false) false).1 (fun _ => rfl)

/-- Claim C5, counterexample to the claim as stated: with an engine that
never finishes and a timeout of 25 ms the timer wins the race and the
waiter rejects with `TimeoutError`, yet the poll loop, which nothing in
the source cancels, still performs a poll at 30 ms, after the race has
settled. -/
theorem waiter_poll_leak :
    waitUntilStateMachineFinishedOrTimeout (fun _ => false) 25 =
      Except.error
        (SMPPeerError.TimeoutError "state machine is not finished before timeout")
    ∧ pollOccursAt (fun _ => false) 30 = true := by
  refine ⟨rfl, rfl⟩

/-- Claim C5 as amended: when the poll loop wins the race, the
continuation clears the timer, so the `TimeoutError` timer never fires;
the losing poll loop however is never cancelled: whenever every earlier
poll observed an unfinished engine, the loop polls again at any later
multiple of the interval, regardless of any timeout having already
elapsed. -/
theorem waiter_race_cancellation (isFin : Nat → Bool) (timeout t : Nat) :
    (waitUntilStateMachineFinishedOrTimeout isFin timeout = Except.ok () →
      timerFires isFin timeout = false)
    ∧ (t % timeSleep = 0 → (∀ s, s < t → s % timeSleep = 0 → isFin s = false) →
      pollOccursAt isFin t = true) := by
  constructor
  · intro h
    unfold waitUntilStateMachineFinishedOrTimeout at h
    unfold timerFires
    cases hf : firstFinishPoll isFin timeout with
    | none => rw [hf] at h; exact absurd h (by simp)
    | some t0 => simp [hf]
  · intro h1 h2
    unfold pollOccursAt
    simp only [Bool.and_eq_true]
    constructor
    · simpa using h1
    · apply List.all_eq_true.mpr
      intro s hs
      have hm := List.mem_filter.mp hs
      have hlt := List.mem_range.mp hm.1
      have hmod : s % timeSleep = 0 := by simpa using hm.2
      simp [h2 s hlt hmod]

/-- Witness for the amended C5: with an engine finished from the start and
timeout 25 the timer never fires; with an engine that never finishes the
poll loop still polls at 30 ms. -/
theorem waiter_race_cancellation_witness :
    timerFires (fun _ => true) 25 = false ∧ pollOccursAt (fun _ => false) 30 = true :=
  ⟨(waiter_race_cancellation (fun _ => true) 25 0).1 rfl,
   (waiter_race_cancellation (fun _ => false) 25 30).2 rfl (fun _ _ _ => rfl)⟩

/-- Claim C6: in a session between an initiator running `runSMP` and a
responder accepting the inbound connection, when the responder completion
waiter succeeds the incoming-SMP callback (when registered) is invoked on
the responder side, exactly once, with `conn.peer` — the initiator
identity — and the engine result; the initiator-side trace of `runSMP`
invokes no callback whatsoever, so the initiator observes the result only
as the value `runSMP` returns. -/
theorem incomingSMP_callback_responder_only {σ Msg Bytes : Type}
    (transit : σ → Option Msg → σ × Option Msg)
    (ser : Msg → Bytes) (deser : Bytes → Msg) (getResult : σ → Bool)
    (sI sR : σ) (initiatorID : String) (timeout : Nat) (isFin : Nat → Bool)
    (framesI framesR : List Bytes)
    (hok : waitUntilStateMachineFinishedOrTimeout isFin timeout = Except.ok ()) :
    invokedEvents
        (inboundConnTrace transit ser deser getResult sR initiatorID timeout isFin
          true framesR).2 =
      [PeerEvent.incomingSMP initiatorID
        (getResult (foldConnData transit ser deser sR framesR).1)]
    ∧ runSMPInvokedEvents transit ser deser sI framesI = [] := by
  constructor
  · unfold inboundConnTrace
    rw [hok]
    rw [invokedEvents_append, invokedEvents_sendData]
    rfl
  · unfold runSMPInvokedEvents runSMPConnTrace
    cases h1 : transit sI none with
    | mk s1 msg =>
        cases msg with
        | none => rfl
        | some m =>
            have h2 : invokedEvents
                (Action.sendData (ser m) ::
                  (foldConnData transit ser deser s1 framesI).2.map Action.sendData) = [] := by
              simp only [invokedEvents, List.filterMap_cons]
              exact invokedEvents_sendData _
            exact h2

/-- Witness for C6: a one-frame-free session with a trivially finished
engine invokes the responder callback once with the initiator identity and
the result, and the initiator trace invokes nothing. -/
theorem incomingSMP_callback_responder_only_witness :
    invokedEvents
        (inboundConnTrace (fun s _ => (s, some ())) (fun _ => ()) (fun _ => ())
          (fun _ => true) () "A" 25 (fun _ => true) true []).2 =
      [PeerEvent.incomingSMP "A" true]
    ∧ runSMPInvokedEvents (fun (s : Unit) (_ : Option Unit) => (s, some ()))
        (fun _ => ()) (fun (_ : Unit) => ()) () [] = [] :=
  incomingSMP_callback_responder_only (fun s _ => (s, some ())) (fun _ => ())
    (fun _ => ()) (fun _ => true) () () "A" 25 (fun _ => true) [] [] rfl

/-- Claim C8: when the completion waiter of an inbound session fails, the
handler catches the error, appends a single console.error log to the
trace and returns: no callback is invoked and nothing propagates or is
retried; conversely, a trace that invoked any callback comes from a
session whose waiter succeeded within the timeout. -/
theorem inbound_failure_only_logged {σ Msg Bytes : Type}
    (transit : σ → Option Msg → σ × Option Msg)
    (ser : Msg → Bytes) (deser : Bytes → Msg) (getResult : σ → Bool)
    (sR : σ) (connPeer : String) (timeout : Nat) (isFin : Nat → Bool)
    (cbRegistered : Bool) (frames : List Bytes) (e : SMPPeerError) :
    (waitUntilStateMachineFinishedOrTimeout isFin timeout = Except.error e →
      (inboundConnTrace transit ser deser getResult sR connPeer timeout isFin
          cbRegistered frames).2 =
        (foldConnData transit ser deser sR frames).2.map Action.sendData ++
          [Action.logError (SMPPeerError.message e ++
            " is thrown when running SMP with peer=" ++ connPeer)]
      ∧ invokedEvents
          (inboundConnTrace transit ser deser getResult sR connPeer timeout isFin
            cbRegistered frames).2 = [])
    ∧ (invokedEvents
          (inboundConnTrace transit ser deser getResult sR connPeer timeout isFin
            cbRegistered frames).2 ≠ [] →
        waitUntilStateMachineFinishedOrTimeout isFin timeout = Except.ok ()) := by
  constructor
  · intro herr
    constructor
    · unfold inboundConnTrace
      rw [herr]
    · unfold inboundConnTrace
      rw [herr]
      rw [invokedEvents_append, invokedEvents_sendData]
      rfl
  · intro hne
    cases hw : waitUntilStateMachineFinishedOrTimeout isFin timeout with
    | ok u => cases u; rfl
    | error e2 =>
        exfalso
        apply hne
        unfold inboundConnTrace
        rw [hw]
        rw [invokedEvents_append, invokedEvents_sendData]
        rfl

/-- Witness for C8: an inbound session whose engine never finishes within
a 25 ms timeout leaves a trace that is exactly one log entry and invokes
no callback. -/
theorem inbound_failure_only_logged_witness :
    (inboundConnTrace (fun (s : Unit) (_ : Option Unit) => (s, some ())) (fun _ => ())
        (fun (_ : Unit) => ()) (fun _ => true) () "A" 25 (fun _ => false) true []).2 =
      (foldConnData (fun (s : Unit) (_ : Option Unit) => (s, some ())) (fun _ => ())
          (fun (_ : Unit) => ()) () []).2.map Action.sendData ++
        [Action.logError
          (SMPPeerError.message
              (SMPPeerError.TimeoutError "state machine is not finished before timeout") ++
            " is thrown when running SMP with peer=" ++ "A")]
    ∧ invokedEvents
        (inboundConnTrace (fun (s : Unit) (_ : Option Unit) => (s, some ())) (fun _ => ())
          (fun (_ : Unit) => ()) (fun _ => true) () "A" 25 (fun _ => false) true []).2 = [] :=
  (inbound_failure_only_logged (fun s _ => (s, some ())) (fun _ => ()) (fun _ => ())
    (fun _ => true) () "A" 25 (fun _ => false) true []
    (SMPPeerError.TimeoutError "state machine is not finished before timeout")).1 rfl

/-- Claim C7: the handler installed on each connection is exactly the
frame bridge the spec describes: decode the inbound buffer, pass exactly
the decoded message to the engine transit operation, send the serialized
reply on the same connection when there is one, and do nothing when the
reply is null. -/
theorem createConnDataHandler_eq_frameBridgeSpec {σ Msg Bytes : Type}
    (transit : σ → Option Msg → σ × Option Msg)
    (ser : Msg → Bytes) (deser : Bytes → Msg) (s : σ) (data : Bytes) :
    createConnDataHandler transit ser deser s data =
      frameBridgeSpec transit ser deser s data := by
  unfold createConnDataHandler frameBridgeSpec
  cases h : transit s (some (deser data)) with
  | mk s2 reply => cases reply <;> simp [h]

/-- Claim C9: `on` rejects any unrecognized event kind synchronously with
`EventUnsupported`, returning the registry with all four slots unchanged;
for each of the four recognized kinds it overwrites exactly that kind
slot with the new callback (replacing any earlier registration) and
leaves the other three slots as they were. -/
theorem onEvent_registry {CB : Type} (r : EventRegistry CB) (event : String) (cb : CB) :
    (event ≠ eventServerConnected → event ≠ eventServerDisconnected →
     event ≠ eventError → event ≠ eventIncomingSMP →
      onEvent r event cb =
        (Except.error (SMPPeerError.EventUnsupported ("event unsupported: " ++ event)), r))
    ∧ onEvent r eventServerConnected cb =
        (Except.ok (), { r with cbServerConnected := some cb })
    ∧ onEvent r eventServerDisconnected cb =
        (Except.ok (), { r with cbServerDisconnected := some cb })
    ∧ onEvent r eventError cb = (Except.ok (), { r with cbError := some cb })
    ∧ onEvent r eventIncomingSMP cb =
        (Except.ok (), { r with cbIncomingSMP := some cb }) := by
  refine ⟨?_, ?_, ?_, ?_, ?_⟩
  · intro h1 h2 h3 h4
    simp [onEvent, h1, h2, h3, h4]
  · simp [onEvent, eventServerConnected]
  · simp [onEvent, eventServerConnected, eventServerDisconnected]
  · simp [onEvent, eventServerConnected, eventServerDisconnected, eventError,
      eventIncomingSMP]
  · simp [onEvent, eventServerConnected, eventServerDisconnected, eventIncomingSMP]

/-- Witness for C9: registering the unrecognized kind foo fails with
`EventUnsupported` and leaves the empty registry untouched. -/
theorem onEvent_registry_witness :
    onEvent (EventRegistry.empty Unit) "foo" () =
      (Except.error (SMPPeerError.EventUnsupported ("event unsupported: " ++ "foo")),
        EventRegistry.empty Unit) :=
  (onEvent_registry (EventRegistry.empty Unit) "foo" ()).1 (by decide) (by decide)
    (by decide) (by decide)

/-- Claim C10: the peer handle, once set, is never cleared by any public
operation; in particular `disconnect` on a registered orchestrator leaves
the instance state unchanged, so the id accessor, `runSMP` and a second
`disconnect` all still pass the `ServerUnconnected` precondition check
instead of failing. -/
theorem peer_handle_never_cleared {CB : Type} (p : SMPPeerState CB) (op : PeerOp CB)
    (hdl : PeerHandle) (hp : p.peer = some hdl)
    (remotePeerID : String) (isFin : Nat → Bool) (result : Bool) :
    (applyOp p op).peer.isSome = true
    ∧ (disconnect p).1 = Except.ok ()
    ∧ (disconnect p).2 = p
    ∧ getID (disconnect p).2 = Except.ok hdl.id
    ∧ isServerUnconnected (runSMP (disconnect p).2 remotePeerID isFin result) = false
    ∧ (disconnect (disconnect p).2).1 = Except.ok () := by
  have hd2 : (disconnect p).2 = p := by
    unfold disconnect
    rw [hp]
  refine ⟨?_, ?_, hd2, ?_, ?_, ?_⟩
  · cases op with
    | opConnect rid => simp [applyOp, connectToPeerServer, connectOpenHandler]
    | opGetID => simp [applyOp, hp]
    | opRunSMP r f b => simp [applyOp, hp]
    | opDisconnect => simp [applyOp, hd2, hp]
    | opOn ev cb => simp [applyOp, hp]
  · unfold disconnect
    rw [hp]
  · rw [hd2]
    unfold getID
    rw [hp]
  · rw [hd2]
    unfold runSMP
    rw [hp]
    unfold waitUntilStateMachineFinishedOrTimeout
    cases firstFinishPoll isFin p.timeout <;> rfl
  · rw [hd2]
    unfold disconnect
    rw [hp]

/-- Witness for C10: on a concrete registered orchestrator, `disconnect`
leaves the handle in place and the id accessor still succeeds. -/
theorem peer_handle_never_cleared_witness :
    (applyOp (⟨"123", none, 20, some ⟨"pid"⟩, EventRegistry.empty Unit⟩ :
        SMPPeerState Unit) PeerOp.opDisconnect).peer.isSome = true
    ∧ getID (disconnect (⟨"123", none, 20, some ⟨"pid"⟩, EventRegistry.empty Unit⟩ :
        SMPPeerState Unit)).2 = Except.ok "pid"
    ∧ isServerUnconnected
        (runSMP (disconnect (⟨"123", none, 20, some ⟨"pid"⟩, EventRegistry.empty Unit⟩ :
          SMPPeerState Unit)).2 "B" (fun _ => false) false) = false :=
  ⟨(peer_handle_never_cleared
      (⟨"123", none, 20, some ⟨"pid"⟩, EventRegistry.empty Unit⟩ : SMPPeerState Unit)
      PeerOp.opDisconnect ⟨"pid"⟩ rfl "B" (fun _ => false) false).1,
   (peer_handle_never_cleared
      (⟨"123", none, 20, some ⟨"pid"⟩, EventRegistry.empty Unit⟩ : SMPPeerState Unit)
      PeerOp.opDisconnect ⟨"pid"⟩ rfl "B" (fun _ => false) false).2.2.2.1,
   (peer_handle_never_cleared
      (⟨"123", none, 20, some ⟨"pid"⟩, EventRegistry.empty Unit⟩ : SMPPeerState Unit)
      PeerOp.opDisconnect ⟨"pid"⟩ rfl "B" (fun _ => false) false).2.2.2.2.1⟩

end SmpPeer
